import Mathlib

/-!
Verification of the Giveaway-family deserialization and identity layer
(`telegram/_giveaway.py`) together with the value-object framework it is
built on.  Pure parts of the source are embedded as Lean functions; the
framework pieces that live outside this module (`TelegramObject`,
`parse_sequence_arg`, `from_timestamp`, the nested `Chat`/`User`/`Message`
hydrators) are modelled from the specification, as marked on each
definition.
-/

mutual
/-- A raw JSON value as decoded from a Telegram API payload.
`null` stands for both JSON `null` and Python `None`. -/
inductive JVal where
  | null : JVal
  | int (n : Int) : JVal
  | str (s : String) : JVal
  | bool (b : Bool) : JVal
  | arr (xs : JArr) : JVal
  | obj (fields : JObj) : JVal
deriving DecidableEq, Repr
/-- A JSON array: an ordered list of JSON values. -/
inductive JArr where
  | nil : JArr
  | cons (v : JVal) (rest : JArr) : JArr
deriving DecidableEq, Repr
/-- A JSON object: an ordered association of string keys to JSON values,
playing the role of a Python `dict` (`JSONDict` in the source). -/
inductive JObj where
  | nil : JObj
  | cons (k : String) (v : JVal) (rest : JObj) : JObj
deriving DecidableEq, Repr
end

/-- Python `data.get(key)` on a raw JSON object: the value at the first matching
key, or `none` when the key is missing. -/
def JObj.get : JObj → String → Option JVal
  | .nil, _ => none
  | .cons k v rest, key => if k = key then some v else rest.get key

/-- The keys of a raw JSON object, in order. -/
def JObj.keys : JObj → List String
  | .nil => []
  | .cons k _ rest => k :: rest.keys

/-- A JSON array as a Lean list of its elements, in order. -/
def JArr.toList : JArr → List JVal
  | .nil => []
  | .cons v rest => v :: rest.toList

/-- A timezone value (`datetime.tzinfo`): UTC or a fixed offset in
minutes. -/
inductive Tzinfo where
  | utc : Tzinfo
  | offset (minutes : Int) : Tzinfo
deriving DecidableEq, Repr

/-- A point in time (`datetime.datetime`): seconds since the Unix epoch
together with the timezone the value is expressed in. -/
structure DateTime where
  epoch : Int
  tzinfo : Tzinfo
deriving DecidableEq, Repr

/-- Modelled from the spec: the context object (`Bot`) consumed by the
hydrator "must expose a way to resolve a default timezone (may be unset)";
`telegram/_bot.py` is not under src/. -/
structure TgBot where
  defaults_tzinfo : Option Tzinfo
deriving DecidableEq, Repr

/-- Modelled from the spec: `extract_tzinfo_from_defaults` resolves the
default timezone carried by the calling context ("a caller-associated
default timezone reached via an object passed along the call chain");
`telegram/_utils/datetime.py` is not under src/. -/
def extract_tzinfo_from_defaults (bot : TgBot) : Option Tzinfo :=
  bot.defaults_tzinfo

/-- Modelled from the spec: the Timestamp Normalizer `from_timestamp`
(`telegram/_utils/datetime.py` is not under src/).  "If
`raw_epoch_seconds` is absent, returns absent (no error).  If present,
constructs a UTC-based point in time from the epoch value, then attaches
`timezone_default` if provided; if `timezone_default` is absent, the
result remains UTC". -/
def from_timestamp (ts : Option Int) (tzinfo : Option Tzinfo) : Option DateTime :=
  match ts with
  | none => none
  | some e => some { epoch := e, tzinfo := tzinfo.getD Tzinfo.utc }

/-- Modelled from the spec: the Sequence Coercion Helper
`parse_sequence_arg` (`telegram/_utils/argumentparsing.py` is not under
src/).  "Absent input yields an empty ordered sequence; a present input
is copied into an immutable ordered sequence preserving original order,
never deduplicated, never sorted." -/
def parse_sequence_arg {α : Type} (args : Option (List α)) : List α :=
  match args with
  | none => []
  | some xs => xs

/-- Modelled from the spec: the nested collaborator kind `Chat`
(`telegram/_chat.py` is not under src/), restricted to the declared
mandatory fields the spec scenarios exercise (`id`, `type`). -/
structure Chat where
  id : Int
  type : String
deriving DecidableEq, Repr

/-- Modelled from the spec: `Chat`'s own hydrator, exposing the uniform
`hydrate(raw, context) -> optional Instance` contract; an absent raw
object yields an absent result, a present object yields a `Chat` built
from its `id` and `type` fields. -/
def Chat.de_json (data : Option JVal) (_bot : TgBot) : Option Chat :=
  match data with
  | some (.obj fields) =>
    match fields.get "id", fields.get "type" with
    | some (.int n), some (.str t) => some { id := n, type := t }
    | _, _ => none
  | _ => none

/-- Modelled from the spec: `Chat.de_list` hydrates an optional raw
sequence elementwise; "if the raw value is a sequence, replace it with the
ordered collection of hydrated elements; if absent, treat as an empty
sequence, not an error". -/
def Chat.de_list (data : Option JVal) (bot : TgBot) : List Chat :=
  match data with
  | some (.arr xs) => xs.toList.filterMap fun v => Chat.de_json (some v) bot
  | _ => []

/-- Modelled from the spec: the nested collaborator kind `User`
(`telegram/_user.py` is not under src/), restricted to the `id` field the
spec scenarios exercise. -/
structure User where
  id : Int
deriving DecidableEq, Repr

/-- Modelled from the spec: `User`'s own hydrator (uniform
`hydrate(raw, context)` contract). -/
def User.de_json (data : Option JVal) (_bot : TgBot) : Option User :=
  match data with
  | some (.obj fields) =>
    match fields.get "id" with
    | some (.int n) => some { id := n }
    | _ => none
  | _ => none

/-- Modelled from the spec: `User.de_list` hydrates an optional raw
sequence elementwise, absent input yielding the empty sequence. -/
def User.de_list (data : Option JVal) (bot : TgBot) : List User :=
  match data with
  | some (.arr xs) => xs.toList.filterMap fun v => User.de_json (some v) bot
  | _ => []

/-- Modelled from the spec: the nested collaborator kind `Message`
(`telegram/_message.py` is not under src/), restricted to its
`message_id` field. -/
structure Message where
  message_id : Int
deriving DecidableEq, Repr

/-- Modelled from the spec: `Message`'s own hydrator (uniform
`hydrate(raw, context)` contract). -/
def Message.de_json (data : Option JVal) (_bot : TgBot) : Option Message :=
  match data with
  | some (.obj fields) =>
    match fields.get "message_id" with
    | some (.int n) => some { message_id := n }
    | _ => none
  | _ => none

/-- A value stored in the working dict during hydration: either a raw
JSON value (passed through untouched) or the result of one of the
in-place field transformations (`de_json` stores hydrated objects,
collections and normalized timestamps back into the dict). -/
inductive TVal where
  | raw (v : JVal) : TVal
  | chats (cs : List Chat) : TVal
  | chatv (c : Option Chat) : TVal
  | users (us : List User) : TVal
  | date (d : Option DateTime) : TVal
  | msg (m : Option Message) : TVal
deriving DecidableEq, Repr

/-- The working dict of a `de_json` call: the shallow copy of the raw
object whose entries are transformed in place before construction. -/
abbrev TDict := List (String × TVal)

/-- Python `data.get(key)` on the working dict. -/
def tdGet : TDict → String → Option TVal
  | [], _ => none
  | (k, v) :: rest, key => if k = key then some v else tdGet rest key

/-- Python `data.get(key)` on the working dict when the caller expects a raw
JSON value (as the transformation steps do before overwriting the key);
a missing key and a transformed value both read as absent. -/
def tdGetJ (d : TDict) (key : String) : Option JVal :=
  match tdGet d key with
  | some (.raw v) => some v
  | _ => none

/-- Python dict assignment `data[key] = v`: replaces the value at an
existing key in place (keeping its position), otherwise appends the
binding at the end. -/
def dictSet : TDict → String → TVal → TDict
  | [], key, v => [(key, v)]
  | (k, w) :: rest, key, v =>
    if k = key then (key, v) :: rest else (k, w) :: dictSet rest key v

/-- A raw JSON object viewed as a working dict all of whose values are
still raw. -/
def toT : JObj → TDict
  | .nil => []
  | .cons k v rest => (k, .raw v) :: toT rest

/-- The raw value handed to the Timestamp Normalizer: a JSON integer
reads as that epoch number, a missing key or JSON `null` as absent. -/
def jOptInt : Option JVal → Option Int
  | some (.int n) => some n
  | _ => none

/-- The error kinds of the framework: `SchemaViolation` (a mandatory
field is missing at construction) and `FrozenStateViolation` (a field
write after `freeze()`). -/
inductive TgError where
  | schemaViolation : TgError
  | frozenStateViolation : TgError
deriving DecidableEq, Repr

/-- Modelled from the spec: `capture_unrecognized(raw_object,
declared_keys)` of the Value Object Base — "returns the sub-mapping of
keys not in that set, stored on the instance for later inspection"
(`TelegramObject` is not under src/).  Keys the schema declares never
appear; unrecognized keys keep their raw JSON values. -/
def captureUnrecognized (d : TDict) (declared : List String) : List (String × JVal) :=
  d.filterMap fun kv =>
    if kv.1 ∈ declared then none
    else
      match kv.2 with
      | .raw v => some (kv.1, v)
      | _ => none

/-- The value of a passthrough (plain) field: `de_json` leaves these keys
raw, so a well-formed working dict always holds `.raw` here. -/
def TVal.asRaw : TVal → JVal
  | .raw v => v
  | _ => .null

/-- The value of the transformed `chats` entry. -/
def TVal.asChats : TVal → List Chat
  | .chats cs => cs
  | _ => []

/-- The value of the transformed `chat` entry. -/
def TVal.asChat : TVal → Option Chat
  | .chatv c => c
  | _ => none

/-- The value of the transformed `winners` entry. -/
def TVal.asUsers : TVal → List User
  | .users us => us
  | _ => []

/-- The value of a transformed timestamp entry. -/
def TVal.asDate : TVal → Option DateTime
  | .date d => d
  | _ => none

/-- The value of the transformed `giveaway_message` entry. -/
def TVal.asMsg : TVal → Option Message
  | .msg m => m
  | _ => none

/-- An optional keyword argument: a missing key takes the parameter
default `None`. -/
def optJ (v : Option JVal) : JVal :=
  v.getD .null

/-- A raw value read as the optional sequence argument that
`parse_sequence_arg` receives (`None` and a missing key are both
absent). -/
def asOptArr (v : Option TVal) : Option (List JVal) :=
  match v with
  | some (.raw (.arr xs)) => some xs.toList
  | _ => none

/-- Modelled from the spec: `TelegramObject._parse_data` shallow-copies
the raw object ("Shallow-copy the raw object so in-place field
transformation does not mutate caller-owned data") and passes `None`
through; in the pure embedding the copy is the value itself (the heap
embedding below makes the copy and the frame condition explicit). -/
def parseData (data : Option JObj) : Option JObj :=
  data

/-- Class `Giveaway` (lines 35–142): a message about a scheduled giveaway.
Field order follows `__slots__`; passthrough fields hold the raw JSON
value (`.null` when absent), transformed fields hold their hydrated
types.  `frozen` is the mutability flag of the value-object base. -/
structure Giveaway where
  chats : List Chat
  winners_selection_date : Option DateTime
  winner_count : JVal
  only_new_members : JVal
  has_public_winners : JVal
  prize_description : JVal
  country_codes : List JVal
  premium_subscription_month_count : JVal
  api_kwargs : List (String × JVal)
  frozen : Bool
deriving DecidableEq, Repr

/-- Modelled from the spec: `TelegramObject._freeze` — "transitions the
instance into an immutable state" (`TelegramObject` is not under
src/). -/
def Giveaway.freeze (g : Giveaway) : Giveaway :=
  { g with frozen := true }

/-- Modelled from the spec: an external attribute write on a `Giveaway`
(`TelegramObject.__setattr__`): after `freeze()` every write fails with
`FrozenStateViolation`; before it, the field update is applied. -/
def Giveaway.setattr (g : Giveaway) (f : Giveaway → Giveaway) : Except TgError Giveaway :=
  if g.frozen then .error .frozenStateViolation else .ok (f g)

/-- Constructor `Giveaway.__init__` (lines 94–124): assigns the declared fields —
`chats` through `tuple(...)`, `country_codes` through
`parse_sequence_arg` — sets the identity attributes and freezes the
instance as its final step. -/
def Giveaway.construct (chats : List Chat) (winners_selection_date : Option DateTime)
    (winner_count : JVal) (only_new_members : JVal) (has_public_winners : JVal)
    (prize_description : JVal) (country_codes : Option (List JVal))
    (premium_subscription_month_count : JVal)
    (api_kwargs : List (String × JVal)) : Giveaway :=
  Giveaway.freeze
    { chats := chats
      winners_selection_date := winners_selection_date
      winner_count := winner_count
      only_new_members := only_new_members
      has_public_winners := has_public_winners
      prize_description := prize_description
      country_codes := parse_sequence_arg country_codes
      premium_subscription_month_count := premium_subscription_month_count
      api_kwargs := api_kwargs
      frozen := false }

/-- Lines 118–122: `self._id_attrs = (self.chats,
self.winners_selection_date, self.winner_count)`. -/
def Giveaway.id_attrs (g : Giveaway) : List Chat × Option DateTime × JVal :=
  (g.chats, g.winners_selection_date, g.winner_count)

/-- Modelled from the spec: value-object equality (`TelegramObject` is
not under src/) — two instances of the same kind are equal iff their
identity-attribute tuples compare element-wise equal. -/
def Giveaway.eq (a b : Giveaway) : Bool :=
  decide (a.id_attrs = b.id_attrs)

/-- The keys `Giveaway.__init__` declares (its keyword parameters). -/
def Giveaway.declaredKeys : List String :=
  ["chats", "winners_selection_date", "winner_count", "only_new_members",
   "has_public_winners", "prize_description", "country_codes",
   "premium_subscription_month_count"]

/-- Modelled from the spec: the construction step of the base
`de_json` (step 7 of the hydration algorithm) for `Giveaway`: construct
the instance from the transformed field map via the schema constructor —
a missing mandatory key is a `SchemaViolation` — capture the unrecognized
keys into `api_kwargs`, and freeze. -/
def Giveaway.fromTDict (d : TDict) : Except TgError Giveaway :=
  match tdGet d "chats", tdGet d "winners_selection_date", tdGet d "winner_count" with
  | some chatsV, some dateV, some wcV =>
    .ok (Giveaway.construct chatsV.asChats dateV.asDate wcV.asRaw
      (optJ (tdGetJ d "only_new_members")) (optJ (tdGetJ d "has_public_winners"))
      (optJ (tdGetJ d "prize_description")) (asOptArr (tdGet d "country_codes"))
      (optJ (tdGetJ d "premium_subscription_month_count"))
      (captureUnrecognized d Giveaway.declaredKeys))
  | _, _, _ => .error .schemaViolation

/-- Lines 134–140 of `Giveaway.de_json`: the in-place field
transformations on the working dict — `data["chats"] =
tuple(Chat.de_list(data.get("chats"), bot))` and
`data["winners_selection_date"] =
from_timestamp(data.get("winners_selection_date"), tzinfo=loc_tzinfo)`
with `loc_tzinfo = extract_tzinfo_from_defaults(bot)`. -/
def Giveaway.transform (d : TDict) (bot : TgBot) : TDict :=
  let loc_tzinfo := extract_tzinfo_from_defaults bot
  let d1 := dictSet d "chats" (.chats (Chat.de_list (tdGetJ d "chats") bot))
  dictSet d1 "winners_selection_date"
    (.date (from_timestamp (jOptInt (tdGetJ d1 "winners_selection_date")) loc_tzinfo))

/-- Classmethod `Giveaway.de_json` (lines 126–142): absent raw data yields an absent
result; otherwise the raw object is copied, its `chats` and
`winners_selection_date` entries are transformed in place, and the
instance is constructed, captured and frozen by the base `de_json`. -/
def Giveaway.de_json (data : Option JObj) (bot : TgBot) : Except TgError (Option Giveaway) :=
  match parseData data with
  | none => .ok none
  | some d =>
    match Giveaway.fromTDict (Giveaway.transform (toT d) bot) with
    | .ok g => .ok (some g)
    | .error e => .error e

/-- Class `GiveawayCreated` (lines 145–150): a service message about giveaway
creation; holds no information and declares no identity attributes.
`ref` models Python object identity (fixed at allocation). -/
structure GiveawayCreated where
  ref : Nat
  api_kwargs : List (String × JVal)
  frozen : Bool
deriving DecidableEq, Repr

/-- The (inherited) constructor of `GiveawayCreated`: stores the
unrecognized-field capture and freezes; `ref` is the identity of the
freshly allocated object. -/
def GiveawayCreated.construct (ref : Nat) (api_kwargs : List (String × JVal)) : GiveawayCreated :=
  { ref := ref, api_kwargs := api_kwargs, frozen := true }

/-- Modelled from the spec: "Objects with no declared identity attributes
fall back to reference identity" — `GiveawayCreated` declares none, so
two instances are equal iff they are the same object. -/
def GiveawayCreated.eq (a b : GiveawayCreated) : Bool :=
  decide (a.ref = b.ref)

/-- Class `GiveawayWinners` (lines 153–272): a message about the completion of
a giveaway with public winners.  Field order follows `__slots__`. -/
structure GiveawayWinners where
  chat : Option Chat
  giveaway_message_id : JVal
  winners_selection_date : Option DateTime
  winner_count : JVal
  winners : List User
  additional_chat_count : JVal
  premium_subscription_month_count : JVal
  unclaimed_prize_count : JVal
  only_new_members : JVal
  was_refunded : JVal
  prize_description : JVal
  api_kwargs : List (String × JVal)
  frozen : Bool
deriving DecidableEq, Repr

/-- Modelled from the spec: `TelegramObject._freeze` for
`GiveawayWinners`. -/
def GiveawayWinners.freeze (g : GiveawayWinners) : GiveawayWinners :=
  { g with frozen := true }

/-- Modelled from the spec: an external attribute write on a
`GiveawayWinners`: after `freeze()` every write fails with
`FrozenStateViolation`; before it, the field update is applied. -/
def GiveawayWinners.setattr (g : GiveawayWinners) (f : GiveawayWinners → GiveawayWinners) :
    Except TgError GiveawayWinners :=
  if g.frozen then .error .frozenStateViolation else .ok (f g)

/-- Constructor `GiveawayWinners.__init__` (lines 215–253): assigns the declared
fields (`winners` through `tuple(...)`), sets the identity attributes and
freezes the instance as its final step. -/
def GiveawayWinners.construct (chat : Option Chat) (giveaway_message_id : JVal)
    (winners_selection_date : Option DateTime) (winner_count : JVal)
    (winners : List User) (additional_chat_count : JVal)
    (premium_subscription_month_count : JVal) (unclaimed_prize_count : JVal)
    (only_new_members : JVal) (was_refunded : JVal) (prize_description : JVal)
    (api_kwargs : List (String × JVal)) : GiveawayWinners :=
  GiveawayWinners.freeze
    { chat := chat
      giveaway_message_id := giveaway_message_id
      winners_selection_date := winners_selection_date
      winner_count := winner_count
      winners := winners
      additional_chat_count := additional_chat_count
      premium_subscription_month_count := premium_subscription_month_count
      unclaimed_prize_count := unclaimed_prize_count
      only_new_members := only_new_members
      was_refunded := was_refunded
      prize_description := prize_description
      api_kwargs := api_kwargs
      frozen := false }

/-- Lines 245–251: `self._id_attrs = (self.chat,
self.giveaway_message_id, self.winners_selection_date,
self.winner_count, self.winners)`. -/
def GiveawayWinners.id_attrs (g : GiveawayWinners) :
    Option Chat × JVal × Option DateTime × JVal × List User :=
  (g.chat, g.giveaway_message_id, g.winners_selection_date, g.winner_count, g.winners)

/-- Modelled from the spec: value-object equality for `GiveawayWinners`
— equal iff the identity-attribute tuples compare element-wise equal. -/
def GiveawayWinners.eq (a b : GiveawayWinners) : Bool :=
  decide (a.id_attrs = b.id_attrs)

/-- The keys `GiveawayWinners.__init__` declares. -/
def GiveawayWinners.declaredKeys : List String :=
  ["chat", "giveaway_message_id", "winners_selection_date", "winner_count",
   "winners", "additional_chat_count", "premium_subscription_month_count",
   "unclaimed_prize_count", "only_new_members", "was_refunded",
   "prize_description"]

/-- Modelled from the spec: the construction step of the base `de_json`
for `GiveawayWinners` (missing mandatory key: `SchemaViolation`;
unrecognized keys: captured; then freeze). -/
def GiveawayWinners.fromTDict (d : TDict) : Except TgError GiveawayWinners :=
  match tdGet d "chat", tdGet d "giveaway_message_id",
      tdGet d "winners_selection_date", tdGet d "winner_count",
      tdGet d "winners" with
  | some chatV, some gmidV, some dateV, some wcV, some winnersV =>
    .ok (GiveawayWinners.construct chatV.asChat gmidV.asRaw dateV.asDate wcV.asRaw
      winnersV.asUsers (optJ (tdGetJ d "additional_chat_count"))
      (optJ (tdGetJ d "premium_subscription_month_count"))
      (optJ (tdGetJ d "unclaimed_prize_count"))
      (optJ (tdGetJ d "only_new_members")) (optJ (tdGetJ d "was_refunded"))
      (optJ (tdGetJ d "prize_description"))
      (captureUnrecognized d GiveawayWinners.declaredKeys))
  | _, _, _, _, _ => .error .schemaViolation

/-- Lines 263–270 of `GiveawayWinners.de_json`: the in-place field
transformations — `data["chat"] = Chat.de_json(data.get("chat"), bot)`,
`data["winners"] = tuple(User.de_list(data.get("winners"), bot))` and
`data["winners_selection_date"] =
from_timestamp(data.get("winners_selection_date"), tzinfo=loc_tzinfo)`. -/
def GiveawayWinners.transform (d : TDict) (bot : TgBot) : TDict :=
  let loc_tzinfo := extract_tzinfo_from_defaults bot
  let d1 := dictSet d "chat" (.chatv (Chat.de_json (tdGetJ d "chat") bot))
  let d2 := dictSet d1 "winners" (.users (User.de_list (tdGetJ d1 "winners") bot))
  dictSet d2 "winners_selection_date"
    (.date (from_timestamp (jOptInt (tdGetJ d2 "winners_selection_date")) loc_tzinfo))

/-- Classmethod `GiveawayWinners.de_json` (lines 255–272). -/
def GiveawayWinners.de_json (data : Option JObj) (bot : TgBot) :
    Except TgError (Option GiveawayWinners) :=
  match parseData data with
  | none => .ok none
  | some d =>
    match GiveawayWinners.fromTDict (GiveawayWinners.transform (toT d) bot) with
    | .ok g => .ok (some g)
    | .error e => .error e

/-- Class `GiveawayCompleted` (lines 275–331): a service message about the
completion of a giveaway without public winners. -/
structure GiveawayCompleted where
  winner_count : JVal
  unclaimed_prize_count : JVal
  giveaway_message : Option Message
  api_kwargs : List (String × JVal)
  frozen : Bool
deriving DecidableEq, Repr

/-- Modelled from the spec: `TelegramObject._freeze` for
`GiveawayCompleted`. -/
def GiveawayCompleted.freeze (g : GiveawayCompleted) : GiveawayCompleted :=
  { g with frozen := true }

/-- Modelled from the spec: an external attribute write on a
`GiveawayCompleted`: after `freeze()` every write fails with
`FrozenStateViolation`; before it, the field update is applied. -/
def GiveawayCompleted.setattr (g : GiveawayCompleted)
    (f : GiveawayCompleted → GiveawayCompleted) : Except TgError GiveawayCompleted :=
  if g.frozen then .error .frozenStateViolation else .ok (f g)

/-- Constructor `GiveawayCompleted.__init__` (lines 300–319): assigns the declared
fields, sets the identity attributes and freezes the instance as its
final step. -/
def GiveawayCompleted.construct (winner_count : JVal) (unclaimed_prize_count : JVal)
    (giveaway_message : Option Message)
    (api_kwargs : List (String × JVal)) : GiveawayCompleted :=
  GiveawayCompleted.freeze
    { winner_count := winner_count
      unclaimed_prize_count := unclaimed_prize_count
      giveaway_message := giveaway_message
      api_kwargs := api_kwargs
      frozen := false }

/-- Lines 314–317: `self._id_attrs = (self.winner_count,
self.unclaimed_prize_count)`. -/
def GiveawayCompleted.id_attrs (g : GiveawayCompleted) : JVal × JVal :=
  (g.winner_count, g.unclaimed_prize_count)

/-- Modelled from the spec: value-object equality for `GiveawayCompleted`
— equal iff the identity-attribute tuples compare element-wise equal. -/
def GiveawayCompleted.eq (a b : GiveawayCompleted) : Bool :=
  decide (a.id_attrs = b.id_attrs)

/-- The keys `GiveawayCompleted.__init__` declares. -/
def GiveawayCompleted.declaredKeys : List String :=
  ["winner_count", "unclaimed_prize_count", "giveaway_message"]

/-- Modelled from the spec: the construction step of the base `de_json`
for `GiveawayCompleted`. -/
def GiveawayCompleted.fromTDict (d : TDict) : Except TgError GiveawayCompleted :=
  match tdGet d "winner_count" with
  | some wcV =>
    .ok (GiveawayCompleted.construct wcV.asRaw
      (optJ (tdGetJ d "unclaimed_prize_count"))
      ((tdGet d "giveaway_message").map TVal.asMsg |>.getD none)
      (captureUnrecognized d GiveawayCompleted.declaredKeys))
  | none => .error .schemaViolation

/-- Line 329 of `GiveawayCompleted.de_json`: the in-place field
transformation — `data["giveaway_message"] =
Message.de_json(data.get("giveaway_message"), bot)`. -/
def GiveawayCompleted.transform (d : TDict) (bot : TgBot) : TDict :=
  dictSet d "giveaway_message" (.msg (Message.de_json (tdGetJ d "giveaway_message") bot))

/-- Classmethod `GiveawayCompleted.de_json` (lines 321–331). -/
def GiveawayCompleted.de_json (data : Option JObj) (bot : TgBot) :
    Except TgError (Option GiveawayCompleted) :=
  match parseData data with
  | none => .ok none
  | some d =>
    match GiveawayCompleted.fromTDict (GiveawayCompleted.transform (toT d) bot) with
    | .ok g => .ok (some g)
    | .error e => .error e

/-- A heap of Python dict objects: the cell at an address holds that
dict's current entries.  Makes object identity — and hence the in-place
nature of the field transformations — explicit. -/
structure Heap where
  cells : List TDict
deriving DecidableEq, Repr

/-- Dereference a dict address. -/
def Heap.read (h : Heap) (r : Nat) : TDict :=
  (h.cells[r]?).getD []

/-- Allocate a fresh dict object holding `d` (as `dict.copy` does),
returning the new heap and the fresh address. -/
def Heap.alloc (h : Heap) (d : TDict) : Heap × Nat :=
  ({ cells := h.cells ++ [d] }, h.cells.length)

/-- Overwrite the dict object at address `r`. -/
def Heap.write (h : Heap) (r : Nat) (d : TDict) : Heap :=
  { cells := h.cells.set r d }

/-- Run a sequence of in-place dict updates against the dict object at
address `r`: each step reads the object's current entries and stores the
updated entries back into the same object. -/
def runWrites (h : Heap) (r : Nat) (steps : List (TDict → TDict)) : Heap :=
  steps.foldl (fun hh step => hh.write r (step (hh.read r))) h

/-- The individual in-place assignments of `Giveaway.de_json`
(lines 137–140), as heap updates. -/
def Giveaway.steps (bot : TgBot) : List (TDict → TDict) :=
  let loc_tzinfo := extract_tzinfo_from_defaults bot
  [fun d => dictSet d "chats" (.chats (Chat.de_list (tdGetJ d "chats") bot)),
   fun d => dictSet d "winners_selection_date"
     (.date (from_timestamp (jOptInt (tdGetJ d "winners_selection_date")) loc_tzinfo))]

/-- The individual in-place assignments of `GiveawayWinners.de_json`
(lines 266–270), as heap updates. -/
def GiveawayWinners.steps (bot : TgBot) : List (TDict → TDict) :=
  let loc_tzinfo := extract_tzinfo_from_defaults bot
  [fun d => dictSet d "chat" (.chatv (Chat.de_json (tdGetJ d "chat") bot)),
   fun d => dictSet d "winners" (.users (User.de_list (tdGetJ d "winners") bot)),
   fun d => dictSet d "winners_selection_date"
     (.date (from_timestamp (jOptInt (tdGetJ d "winners_selection_date")) loc_tzinfo))]

/-- The single in-place assignment of `GiveawayCompleted.de_json`
(line 329), as a heap update. -/
def GiveawayCompleted.steps (bot : TgBot) : List (TDict → TDict) :=
  [fun d => dictSet d "giveaway_message"
    (.msg (Message.de_json (tdGetJ d "giveaway_message") bot))]

/-- Classmethod `Giveaway.de_json` with the Python dict mutation made explicit: the
caller's dict lives at `dataRef`; `_parse_data` allocates a shallow copy,
the field transformations are written in place to the copy only, and the
instance is constructed from the copy's final entries. -/
def Giveaway.de_json_mut (h : Heap) (dataRef : Option Nat) (bot : TgBot) :
    Heap × Except TgError (Option Giveaway) :=
  match dataRef with
  | none => (h, .ok none)
  | some r =>
    let copy := h.read r
    let alloc := h.alloc copy
    let h2 := runWrites alloc.1 alloc.2 (Giveaway.steps bot)
    (h2, (Giveaway.fromTDict (h2.read alloc.2)).map some)

/-- Classmethod `GiveawayWinners.de_json` with the dict mutation made explicit. -/
def GiveawayWinners.de_json_mut (h : Heap) (dataRef : Option Nat) (bot : TgBot) :
    Heap × Except TgError (Option GiveawayWinners) :=
  match dataRef with
  | none => (h, .ok none)
  | some r =>
    let copy := h.read r
    let alloc := h.alloc copy
    let h2 := runWrites alloc.1 alloc.2 (GiveawayWinners.steps bot)
    (h2, (GiveawayWinners.fromTDict (h2.read alloc.2)).map some)

/-- Classmethod `GiveawayCompleted.de_json` with the dict mutation made explicit. -/
def GiveawayCompleted.de_json_mut (h : Heap) (dataRef : Option Nat) (bot : TgBot) :
    Heap × Except TgError (Option GiveawayCompleted) :=
  match dataRef with
  | none => (h, .ok none)
  | some r =>
    let copy := h.read r
    let alloc := h.alloc copy
    let h2 := runWrites alloc.1 alloc.2 (GiveawayCompleted.steps bot)
    (h2, (GiveawayCompleted.fromTDict (h2.read alloc.2)).map some)

theorem tdGet_dictSet_same (d : TDict) (k : String) (v : TVal) :
    tdGet (dictSet d k v) k = some v := by
  induction d with
  | nil => simp [dictSet, tdGet]
  | cons kv rest ih =>
    obtain ⟨k1, w⟩ := kv
    by_cases h : k1 = k <;> simp [dictSet, tdGet, h, ih]

theorem tdGet_dictSet_ne (d : TDict) (k k' : String) (v : TVal) (h : k ≠ k') :
    tdGet (dictSet d k v) k' = tdGet d k' := by
  induction d with
  | nil => simp [dictSet, tdGet, h]
  | cons kv rest ih =>
    obtain ⟨k1, w⟩ := kv
    by_cases h1 : k1 = k
    · subst h1
      simp [dictSet, tdGet, h]
    · simp [dictSet, tdGet, h1, ih]

theorem tdGet_toT : (o : JObj) → (k : String) →
    tdGet (toT o) k = (o.get k).map TVal.raw
  | .nil, k => by simp [toT, tdGet, JObj.get]
  | .cons k1 v rest, k => by
    by_cases h : k1 = k <;> simp [toT, tdGet, JObj.get, h, tdGet_toT rest k]

theorem tdGetJ_toT (o : JObj) (k : String) :
    tdGetJ (toT o) k = o.get k := by
  rw [tdGetJ, tdGet_toT]
  cases o.get k <;> simp

theorem tdGetJ_dictSet_ne (d : TDict) (k k' : String) (v : TVal) (h : k ≠ k') :
    tdGetJ (dictSet d k v) k' = tdGetJ d k' := by
  rw [tdGetJ, tdGet_dictSet_ne d k k' v h, tdGetJ]

/-- C3: for every Giveaway-family type, calling `de_json` with an absent
(null/missing) raw object returns an absent result (`None`) rather than
raising an error. -/
theorem de_json_absent_input (bot : TgBot) :
    Giveaway.de_json none bot = .ok none ∧
    GiveawayWinners.de_json none bot = .ok none ∧
    GiveawayCompleted.de_json none bot = .ok none :=
  ⟨rfl, rfl, rfl⟩

theorem de_json_absent_input_witness :
    Giveaway.de_json none { defaults_tzinfo := none } = .ok none ∧
    GiveawayWinners.de_json none { defaults_tzinfo := none } = .ok none ∧
    GiveawayCompleted.de_json none { defaults_tzinfo := none } = .ok none :=
  de_json_absent_input { defaults_tzinfo := none }

/-- C5: timestamp normalization — an absent epoch input yields an absent
result regardless of the timezone default, and the epoch input
`1700000000` with no timezone default yields the UTC point in time of
that epoch second (explicitly UTC, not local). -/
theorem timestamp_normalization (tz : Option Tzinfo) :
    from_timestamp none tz = none ∧
    from_timestamp (some 1700000000) none =
      some { epoch := 1700000000, tzinfo := Tzinfo.utc } :=
  ⟨rfl, rfl⟩

theorem timestamp_normalization_witness :
    from_timestamp none (some (Tzinfo.offset 60)) = none ∧
    from_timestamp (some 1700000000) none =
      some { epoch := 1700000000, tzinfo := Tzinfo.utc } :=
  timestamp_normalization (some (Tzinfo.offset 60))

/-- C6: sequence coercion — coercing an absent sequence and coercing an
empty sequence both yield the empty ordered sequence of length 0, and
coercing a present sequence preserves it elementwise in order (in
particular `[a, b]` stays `[a, b]`), never deduplicated and never
sorted. -/
theorem sequence_coercion (α : Type) (a b : α) :
    parse_sequence_arg (none : Option (List α)) = [] ∧
    parse_sequence_arg (some ([] : List α)) = [] ∧
    parse_sequence_arg (some [a, b]) = [a, b] ∧
    (∀ xs : List α, parse_sequence_arg (some xs) = xs) :=
  ⟨rfl, rfl, rfl, fun _ => rfl⟩

theorem sequence_coercion_witness :
    parse_sequence_arg (none : Option (List Nat)) = [] ∧
    parse_sequence_arg (some ([] : List Nat)) = [] ∧
    parse_sequence_arg (some [7, 7]) = [7, 7] ∧
    (∀ xs : List Nat, parse_sequence_arg (some xs) = xs) :=
  sequence_coercion Nat 7 7

/-- C9: `GiveawayCreated` declares no identity attributes, so equality
falls back to reference identity: every instance equals itself, and two
distinct instances — even ones constructed from identical inputs —
compare unequal. -/
theorem created_reference_identity (a b : GiveawayCreated)
    (kw : List (String × JVal)) (h : a.ref ≠ b.ref) :
    GiveawayCreated.eq a a = true ∧
    GiveawayCreated.eq a b = false ∧
    GiveawayCreated.eq (GiveawayCreated.construct 0 kw)
      (GiveawayCreated.construct 1 kw) = false := by
  refine ⟨by simp [GiveawayCreated.eq], ?_, ?_⟩
  · simp [GiveawayCreated.eq, h]
  · simp [GiveawayCreated.eq, GiveawayCreated.construct]

theorem created_reference_identity_witness :
    GiveawayCreated.eq (GiveawayCreated.construct 0 []) (GiveawayCreated.construct 0 []) = true ∧
    GiveawayCreated.eq (GiveawayCreated.construct 0 []) (GiveawayCreated.construct 1 []) = false ∧
    GiveawayCreated.eq (GiveawayCreated.construct 0 [])
      (GiveawayCreated.construct 1 []) = false :=
  created_reference_identity (GiveawayCreated.construct 0 [])
    (GiveawayCreated.construct 1 []) [] (by decide)

/-- C4: for `Giveaway`, `GiveawayWinners` and `GiveawayCompleted`, the
constructor freezes the instance as its final step (every constructed
instance is frozen); after the first `freeze()` every external
field-write attempt fails with `FrozenStateViolation`; and invoking
`freeze` a second time has the same effect as invoking it once. -/
theorem freeze_semantics :
    (∀ (cs : List Chat) (d : Option DateTime) (wc onm hpw pd : JVal)
       (cc : Option (List JVal)) (pmc : JVal) (kw : List (String × JVal)),
       (Giveaway.construct cs d wc onm hpw pd cc pmc kw).frozen = true) ∧
    (∀ (g : Giveaway) (f : Giveaway → Giveaway), g.frozen = true →
       Giveaway.setattr g f = .error .frozenStateViolation) ∧
    (∀ g : Giveaway, g.freeze.freeze = g.freeze) ∧
    (∀ (c : Option Chat) (gmid : JVal) (d : Option DateTime) (wc : JVal)
       (ws : List User) (acc pmc upc onm wr pd : JVal) (kw : List (String × JVal)),
       (GiveawayWinners.construct c gmid d wc ws acc pmc upc onm wr pd kw).frozen = true) ∧
    (∀ (g : GiveawayWinners) (f : GiveawayWinners → GiveawayWinners), g.frozen = true →
       GiveawayWinners.setattr g f = .error .frozenStateViolation) ∧
    (∀ g : GiveawayWinners, g.freeze.freeze = g.freeze) ∧
    (∀ (wc upc : JVal) (m : Option Message) (kw : List (String × JVal)),
       (GiveawayCompleted.construct wc upc m kw).frozen = true) ∧
    (∀ (g : GiveawayCompleted) (f : GiveawayCompleted → GiveawayCompleted), g.frozen = true →
       GiveawayCompleted.setattr g f = .error .frozenStateViolation) ∧
    (∀ g : GiveawayCompleted, g.freeze.freeze = g.freeze) := by
  refine ⟨fun _ _ _ _ _ _ _ _ _ => rfl, fun g f h => ?_, fun g => rfl,
    fun _ _ _ _ _ _ _ _ _ _ _ _ => rfl, fun g f h => ?_, fun g => rfl,
    fun _ _ _ _ => rfl, fun g f h => ?_, fun g => rfl⟩
  · simp [Giveaway.setattr, h]
  · simp [GiveawayWinners.setattr, h]
  · simp [GiveawayCompleted.setattr, h]

theorem freeze_semantics_witness :
    (GiveawayCompleted.construct (.int 3) .null none []).frozen = true ∧
    GiveawayCompleted.setattr (GiveawayCompleted.construct (.int 3) .null none [])
      (fun g => { g with winner_count := .int 4 }) = .error .frozenStateViolation :=
  ⟨freeze_semantics.2.2.2.2.2.2.1 (.int 3) .null none [],
   freeze_semantics.2.2.2.2.2.2.2.1 (GiveawayCompleted.construct (.int 3) .null none [])
     (fun g => { g with winner_count := .int 4 }) rfl⟩

/-- C1: for `Giveaway`, `GiveawayWinners` and `GiveawayCompleted`,
equality is reflexive, symmetric and transitive, and two instances are
equal iff their declared identity-attribute tuples are element-wise equal
(`Giveaway`: chats, winners_selection_date, winner_count;
`GiveawayWinners`: chat, giveaway_message_id, winners_selection_date,
winner_count, winners; `GiveawayCompleted`: winner_count,
unclaimed_prize_count); in particular two `GiveawayCompleted` differing
only in `giveaway_message` compare equal. -/
theorem giveaway_family_equality :
    (∀ a : Giveaway, Giveaway.eq a a = true) ∧
    (∀ a b : Giveaway, Giveaway.eq a b = true → Giveaway.eq b a = true) ∧
    (∀ a b c : Giveaway, Giveaway.eq a b = true → Giveaway.eq b c = true →
      Giveaway.eq a c = true) ∧
    (∀ a b : Giveaway, Giveaway.eq a b = true ↔
      (a.chats = b.chats ∧ a.winners_selection_date = b.winners_selection_date ∧
       a.winner_count = b.winner_count)) ∧
    (∀ a : GiveawayWinners, GiveawayWinners.eq a a = true) ∧
    (∀ a b : GiveawayWinners, GiveawayWinners.eq a b = true →
      GiveawayWinners.eq b a = true) ∧
    (∀ a b c : GiveawayWinners, GiveawayWinners.eq a b = true →
      GiveawayWinners.eq b c = true → GiveawayWinners.eq a c = true) ∧
    (∀ a b : GiveawayWinners, GiveawayWinners.eq a b = true ↔
      (a.chat = b.chat ∧ a.giveaway_message_id = b.giveaway_message_id ∧
       a.winners_selection_date = b.winners_selection_date ∧
       a.winner_count = b.winner_count ∧ a.winners = b.winners)) ∧
    (∀ a : GiveawayCompleted, GiveawayCompleted.eq a a = true) ∧
    (∀ a b : GiveawayCompleted, GiveawayCompleted.eq a b = true →
      GiveawayCompleted.eq b a = true) ∧
    (∀ a b c : GiveawayCompleted, GiveawayCompleted.eq a b = true →
      GiveawayCompleted.eq b c = true → GiveawayCompleted.eq a c = true) ∧
    (∀ a b : GiveawayCompleted, GiveawayCompleted.eq a b = true ↔
      (a.winner_count = b.winner_count ∧
       a.unclaimed_prize_count = b.unclaimed_prize_count)) ∧
    (∀ (m1 m2 : Option Message) (wc upc : JVal) (kw1 kw2 : List (String × JVal)),
      GiveawayCompleted.eq (GiveawayCompleted.construct wc upc m1 kw1)
        (GiveawayCompleted.construct wc upc m2 kw2) = true) := by
  refine ⟨?_, ?_, ?_, ?_, ?_, ?_, ?_, ?_, ?_, ?_, ?_, ?_, ?_⟩
  · intro a; simp [Giveaway.eq]
  · intro a b h
    simp only [Giveaway.eq, decide_eq_true_eq] at h ⊢
    exact h.symm
  · intro a b c h1 h2
    simp only [Giveaway.eq, decide_eq_true_eq] at h1 h2 ⊢
    exact h1.trans h2
  · intro a b
    simp [Giveaway.eq, Giveaway.id_attrs, Prod.ext_iff]
  · intro a; simp [GiveawayWinners.eq]
  · intro a b h
    simp only [GiveawayWinners.eq, decide_eq_true_eq] at h ⊢
    exact h.symm
  · intro a b c h1 h2
    simp only [GiveawayWinners.eq, decide_eq_true_eq] at h1 h2 ⊢
    exact h1.trans h2
  · intro a b
    simp [GiveawayWinners.eq, GiveawayWinners.id_attrs, Prod.ext_iff]
  · intro a; simp [GiveawayCompleted.eq]
  · intro a b h
    simp only [GiveawayCompleted.eq, decide_eq_true_eq] at h ⊢
    exact h.symm
  · intro a b c h1 h2
    simp only [GiveawayCompleted.eq, decide_eq_true_eq] at h1 h2 ⊢
    exact h1.trans h2
  · intro a b
    simp [GiveawayCompleted.eq, GiveawayCompleted.id_attrs, Prod.ext_iff]
  · intro m1 m2 wc upc kw1 kw2
    simp [GiveawayCompleted.eq, GiveawayCompleted.id_attrs,
      GiveawayCompleted.construct, GiveawayCompleted.freeze]

theorem giveaway_family_equality_witness :
    GiveawayCompleted.eq (GiveawayCompleted.construct (.int 3) (.int 1) none [])
      (GiveawayCompleted.construct (.int 3) (.int 1)
        (some { message_id := 99 }) [("k", .str "v")]) = true :=
  giveaway_family_equality.2.2.2.2.2.2.2.2.2.2.2.2 none
    (some { message_id := 99 }) (.int 3) (.int 1) [] [("k", .str "v")]

/-- The raw JSON object of the nested-hydration scenario: a
`GiveawayWinners` payload with `chat={"id":1,"type":"group"}` and
`winners=[{"id":10},{"id":20}]`, alongside its mandatory scalar
fields. -/
def winnersScenarioRaw : JObj :=
  .cons "chat" (.obj (.cons "id" (.int 1) (.cons "type" (.str "group") .nil)))
    (.cons "giveaway_message_id" (.int 5)
      (.cons "winners_selection_date" (.int 1700000000)
        (.cons "winner_count" (.int 2)
          (.cons "winners"
            (.arr (.cons (.obj (.cons "id" (.int 10) .nil))
              (.cons (.obj (.cons "id" (.int 20) .nil)) .nil)))
            .nil))))

/-- C7: hydrating the `GiveawayWinners` raw JSON whose `chat` is
`{"id":1,"type":"group"}` and whose `winners` are `[{"id":10},{"id":20}]`
returns an instance whose `chat` is the hydrated `Chat` with id 1 and
whose `winners` are exactly the two hydrated `User`s with ids 10 and 20,
in that order. -/
theorem nested_hydration_scenario :
    ∃ w : GiveawayWinners,
      GiveawayWinners.de_json (some winnersScenarioRaw) { defaults_tzinfo := none }
        = .ok (some w) ∧
      w.chat = some { id := 1, type := "group" } ∧
      (w.chat.map Chat.id) = some 1 ∧
      w.winners = [{ id := 10 }, { id := 20 }] ∧
      w.winners.map User.id = [10, 20] := by
  refine ⟨_, rfl, ?_, ?_, ?_, ?_⟩ <;> rfl

theorem giveaway_transform_get (raw : JObj) (bot : TgBot) (k : String)
    (h1 : k ≠ "chats") (h2 : k ≠ "winners_selection_date") :
    tdGet (Giveaway.transform (toT raw) bot) k = (raw.get k).map TVal.raw := by
  simp only [Giveaway.transform]
  rw [tdGet_dictSet_ne _ _ _ _ (Ne.symm h2), tdGet_dictSet_ne _ _ _ _ (Ne.symm h1),
    tdGet_toT]

theorem giveaway_transform_chats (raw : JObj) (bot : TgBot) :
    tdGet (Giveaway.transform (toT raw) bot) "chats"
      = some (.chats (Chat.de_list (raw.get "chats") bot)) := by
  simp only [Giveaway.transform]
  rw [tdGet_dictSet_ne _ _ _ _ (by decide), tdGet_dictSet_same, tdGetJ_toT]

theorem giveaway_transform_date (raw : JObj) (bot : TgBot) :
    tdGet (Giveaway.transform (toT raw) bot) "winners_selection_date"
      = some (.date (from_timestamp (jOptInt (raw.get "winners_selection_date"))
          (extract_tzinfo_from_defaults bot))) := by
  simp only [Giveaway.transform]
  rw [tdGet_dictSet_same, tdGetJ_dictSet_ne _ _ _ _ (by decide), tdGetJ_toT]

theorem giveaway_transform_getJ (raw : JObj) (bot : TgBot) (k : String)
    (h1 : k ≠ "chats") (h2 : k ≠ "winners_selection_date") :
    tdGetJ (Giveaway.transform (toT raw) bot) k = raw.get k := by
  rw [tdGetJ, giveaway_transform_get raw bot k h1 h2]
  cases raw.get k <;> rfl

theorem giveaway_fromTDict_missing (d : TDict)
    (h : tdGet d "chats" = none ∨ tdGet d "winners_selection_date" = none ∨
      tdGet d "winner_count" = none) :
    Giveaway.fromTDict d = .error .schemaViolation := by
  unfold Giveaway.fromTDict
  split
  · rename_i chatsV dateV wcV hc hd hw
    rcases h with h | h | h <;> simp_all
  · rfl

theorem giveaway_de_json_ok (raw : JObj) (bot : TgBot) (wc : JVal)
    (hwc : raw.get "winner_count" = some wc) :
    Giveaway.de_json (some raw) bot = .ok (some (Giveaway.construct
      (Chat.de_list (raw.get "chats") bot)
      (from_timestamp (jOptInt (raw.get "winners_selection_date"))
        (extract_tzinfo_from_defaults bot))
      wc
      (optJ (raw.get "only_new_members"))
      (optJ (raw.get "has_public_winners"))
      (optJ (raw.get "prize_description"))
      (asOptArr ((raw.get "country_codes").map TVal.raw))
      (optJ (raw.get "premium_subscription_month_count"))
      (captureUnrecognized (Giveaway.transform (toT raw) bot)
        Giveaway.declaredKeys))) := by
  have hwc2 : tdGet (Giveaway.transform (toT raw) bot) "winner_count"
      = some (.raw wc) := by
    rw [giveaway_transform_get raw bot _ (by decide) (by decide), hwc]
    rfl
  have hcc : tdGet (Giveaway.transform (toT raw) bot) "country_codes"
      = (raw.get "country_codes").map TVal.raw :=
    giveaway_transform_get raw bot _ (by decide) (by decide)
  simp only [Giveaway.de_json, parseData, Giveaway.fromTDict,
    giveaway_transform_chats, giveaway_transform_date, hwc2, hcc,
    giveaway_transform_getJ raw bot "only_new_members" (by decide) (by decide),
    giveaway_transform_getJ raw bot "has_public_winners" (by decide) (by decide),
    giveaway_transform_getJ raw bot "prize_description" (by decide) (by decide),
    giveaway_transform_getJ raw bot "premium_subscription_month_count"
      (by decide) (by decide),
    TVal.asChats, TVal.asDate, TVal.asRaw]

/-- C2: hydration tolerates missing optional declared fields — whenever
the raw object supplies `winner_count`, `Giveaway.de_json` succeeds, and
each missing optional field reads as absent (`.null`) or empty — while a
field map missing a mandatory declared key (`chats`,
`winners_selection_date` or `winner_count`) is rejected at construction
with a `SchemaViolation` rather than producing an instance; in
particular a raw object missing `winner_count` makes the whole hydration
fail with a `SchemaViolation`. -/
theorem hydration_missing_fields :
    (∀ (raw : JObj) (bot : TgBot) (wc : JVal), raw.get "winner_count" = some wc →
      ∃ g : Giveaway, Giveaway.de_json (some raw) bot = .ok (some g) ∧
        g.winner_count = wc ∧
        (raw.get "only_new_members" = none → g.only_new_members = .null) ∧
        (raw.get "has_public_winners" = none → g.has_public_winners = .null) ∧
        (raw.get "prize_description" = none → g.prize_description = .null) ∧
        (raw.get "country_codes" = none → g.country_codes = []) ∧
        (raw.get "premium_subscription_month_count" = none →
          g.premium_subscription_month_count = .null)) ∧
    (∀ d : TDict, tdGet d "chats" = none ∨ tdGet d "winners_selection_date" = none ∨
      tdGet d "winner_count" = none →
      Giveaway.fromTDict d = .error .schemaViolation) ∧
    (∀ (raw : JObj) (bot : TgBot), raw.get "winner_count" = none →
      Giveaway.de_json (some raw) bot = .error .schemaViolation) := by
  refine ⟨?_, giveaway_fromTDict_missing, ?_⟩
  · intro raw bot wc hwc
    refine ⟨_, giveaway_de_json_ok raw bot wc hwc, rfl, ?_, ?_, ?_, ?_, ?_⟩ <;>
      intro h <;>
      simp [Giveaway.construct, Giveaway.freeze, h, optJ, asOptArr, parse_sequence_arg]
  · intro raw bot h
    have h1 : tdGet (Giveaway.transform (toT raw) bot) "winner_count" = none := by
      rw [giveaway_transform_get raw bot _ (by decide) (by decide), h]
      rfl
    have h2 := giveaway_fromTDict_missing _ (Or.inr (Or.inr h1))
    simp only [Giveaway.de_json, parseData, h2]

theorem hydration_missing_fields_witness :
    (∃ g : Giveaway,
      Giveaway.de_json (some (.cons "winner_count" (.int 3) .nil))
        { defaults_tzinfo := none } = .ok (some g) ∧
      g.winner_count = .int 3 ∧
      ((JObj.cons "winner_count" (.int 3) .nil).get "only_new_members" = none →
        g.only_new_members = .null) ∧
      ((JObj.cons "winner_count" (.int 3) .nil).get "has_public_winners" = none →
        g.has_public_winners = .null) ∧
      ((JObj.cons "winner_count" (.int 3) .nil).get "prize_description" = none →
        g.prize_description = .null) ∧
      ((JObj.cons "winner_count" (.int 3) .nil).get "country_codes" = none →
        g.country_codes = []) ∧
      ((JObj.cons "winner_count" (.int 3) .nil).get "premium_subscription_month_count"
        = none → g.premium_subscription_month_count = .null)) ∧
    Giveaway.fromTDict [] = .error .schemaViolation ∧
    Giveaway.de_json (some (.cons "prize_description" (.str "x") .nil))
      { defaults_tzinfo := none } = .error .schemaViolation :=
  ⟨hydration_missing_fields.1 (.cons "winner_count" (.int 3) .nil)
      { defaults_tzinfo := none } (.int 3) rfl,
   hydration_missing_fields.2.1 [] (Or.inl rfl),
   hydration_missing_fields.2.2 (.cons "prize_description" (.str "x") .nil)
      { defaults_tzinfo := none } rfl⟩

theorem winners_transform_chat (raw : JObj) (bot : TgBot) :
    tdGet (GiveawayWinners.transform (toT raw) bot) "chat"
      = some (.chatv (Chat.de_json (raw.get "chat") bot)) := by
  simp only [GiveawayWinners.transform]
  rw [tdGet_dictSet_ne _ _ _ _ (by decide), tdGet_dictSet_ne _ _ _ _ (by decide),
    tdGet_dictSet_same, tdGetJ_toT]

theorem winners_transform_winners (raw : JObj) (bot : TgBot) :
    tdGet (GiveawayWinners.transform (toT raw) bot) "winners"
      = some (.users (User.de_list (raw.get "winners") bot)) := by
  simp only [GiveawayWinners.transform]
  rw [tdGet_dictSet_ne _ _ _ _ (by decide), tdGet_dictSet_same,
    tdGetJ_dictSet_ne _ _ _ _ (by decide), tdGetJ_toT]

theorem winners_transform_date (raw : JObj) (bot : TgBot) :
    tdGet (GiveawayWinners.transform (toT raw) bot) "winners_selection_date"
      = some (.date (from_timestamp (jOptInt (raw.get "winners_selection_date"))
          (extract_tzinfo_from_defaults bot))) := by
  simp only [GiveawayWinners.transform]
  rw [tdGet_dictSet_same, tdGetJ_dictSet_ne _ _ _ _ (by decide),
    tdGetJ_dictSet_ne _ _ _ _ (by decide), tdGetJ_toT]

theorem completed_transform_msg (raw : JObj) (bot : TgBot) :
    tdGet (GiveawayCompleted.transform (toT raw) bot) "giveaway_message"
      = some (.msg (Message.de_json (raw.get "giveaway_message") bot)) := by
  simp only [GiveawayCompleted.transform]
  rw [tdGet_dictSet_same, tdGetJ_toT]

/-- Lookup in the unrecognized-field capture (`api_kwargs`). -/
def kwGet : List (String × JVal) → String → Option JVal
  | [], _ => none
  | (k, v) :: rest, key => if k = key then some v else kwGet rest key

theorem kwGet_capture_declared : ∀ (d : TDict) (declared : List String) (k : String),
    k ∈ declared → kwGet (captureUnrecognized d declared) k = none
  | [], _, _, _ => rfl
  | (k1, v) :: rest, declared, k, hk => by
    have ih := kwGet_capture_declared rest declared k hk
    by_cases h1 : k1 ∈ declared
    · simpa [captureUnrecognized, List.filterMap_cons, h1] using ih
    · have hne : k1 ≠ k := fun he => h1 (he ▸ hk)
      cases v <;>
        simpa [captureUnrecognized, List.filterMap_cons, h1, kwGet, hne] using ih

theorem giveaway_api_kwargs_of_ok (raw : JObj) (bot : TgBot) (g : Giveaway)
    (h : Giveaway.de_json (some raw) bot = .ok (some g)) :
    g.api_kwargs = captureUnrecognized (Giveaway.transform (toT raw) bot)
      Giveaway.declaredKeys := by
  simp only [Giveaway.de_json, parseData] at h
  cases hfd : Giveaway.fromTDict (Giveaway.transform (toT raw) bot) with
  | ok g' =>
    rw [hfd] at h
    simp only [Except.ok.injEq, Option.some.injEq] at h
    subst h
    unfold Giveaway.fromTDict at hfd
    split at hfd
    · simp only [Except.ok.injEq] at hfd
      subst hfd
      rfl
    · simp at hfd
  | error e =>
    rw [hfd] at h
    simp at h

theorem winners_api_kwargs_of_ok (raw : JObj) (bot : TgBot) (g : GiveawayWinners)
    (h : GiveawayWinners.de_json (some raw) bot = .ok (some g)) :
    g.api_kwargs = captureUnrecognized (GiveawayWinners.transform (toT raw) bot)
      GiveawayWinners.declaredKeys := by
  simp only [GiveawayWinners.de_json, parseData] at h
  cases hfd : GiveawayWinners.fromTDict (GiveawayWinners.transform (toT raw) bot) with
  | ok g' =>
    rw [hfd] at h
    simp only [Except.ok.injEq, Option.some.injEq] at h
    subst h
    unfold GiveawayWinners.fromTDict at hfd
    split at hfd
    · simp only [Except.ok.injEq] at hfd
      subst hfd
      rfl
    · simp at hfd
  | error e =>
    rw [hfd] at h
    simp at h

theorem completed_api_kwargs_of_ok (raw : JObj) (bot : TgBot) (g : GiveawayCompleted)
    (h : GiveawayCompleted.de_json (some raw) bot = .ok (some g)) :
    g.api_kwargs = captureUnrecognized (GiveawayCompleted.transform (toT raw) bot)
      GiveawayCompleted.declaredKeys := by
  simp only [GiveawayCompleted.de_json, parseData] at h
  cases hfd : GiveawayCompleted.fromTDict (GiveawayCompleted.transform (toT raw) bot) with
  | ok g' =>
    rw [hfd] at h
    simp only [Except.ok.injEq, Option.some.injEq] at h
    subst h
    unfold GiveawayCompleted.fromTDict at hfd
    split at hfd
    · simp only [Except.ok.injEq] at hfd
      subst hfd
      rfl
    · simp at hfd
  | error e =>
    rw [hfd] at h
    simp at h

/-- C10: in every `de_json` of the Giveaway family, the transformed keys
(`chats` and `winners_selection_date` for `Giveaway`; `chat`, `winners`
and `winners_selection_date` for `GiveawayWinners`; `giveaway_message`
for `GiveawayCompleted`) are unconditionally written into the field map —
even when absent from the raw input, yielding an empty collection or an
absent value — and consequently never appear in the unrecognized-field
capture (`api_kwargs`) of the constructed instance. -/
theorem transformed_keys_unconditional :
    (∀ (raw : JObj) (bot : TgBot),
      tdGet (Giveaway.transform (toT raw) bot) "chats"
        = some (.chats (Chat.de_list (raw.get "chats") bot)) ∧
      tdGet (Giveaway.transform (toT raw) bot) "winners_selection_date"
        = some (.date (from_timestamp (jOptInt (raw.get "winners_selection_date"))
            (extract_tzinfo_from_defaults bot))) ∧
      (raw.get "chats" = none →
        tdGet (Giveaway.transform (toT raw) bot) "chats" = some (.chats [])) ∧
      (raw.get "winners_selection_date" = none →
        tdGet (Giveaway.transform (toT raw) bot) "winners_selection_date"
          = some (.date none))) ∧
    (∀ (raw : JObj) (bot : TgBot),
      tdGet (GiveawayWinners.transform (toT raw) bot) "chat"
        = some (.chatv (Chat.de_json (raw.get "chat") bot)) ∧
      tdGet (GiveawayWinners.transform (toT raw) bot) "winners"
        = some (.users (User.de_list (raw.get "winners") bot)) ∧
      tdGet (GiveawayWinners.transform (toT raw) bot) "winners_selection_date"
        = some (.date (from_timestamp (jOptInt (raw.get "winners_selection_date"))
            (extract_tzinfo_from_defaults bot))) ∧
      (raw.get "chat" = none →
        tdGet (GiveawayWinners.transform (toT raw) bot) "chat"
          = some (.chatv none)) ∧
      (raw.get "winners" = none →
        tdGet (GiveawayWinners.transform (toT raw) bot) "winners"
          = some (.users [])) ∧
      (raw.get "winners_selection_date" = none →
        tdGet (GiveawayWinners.transform (toT raw) bot) "winners_selection_date"
          = some (.date none))) ∧
    (∀ (raw : JObj) (bot : TgBot),
      tdGet (GiveawayCompleted.transform (toT raw) bot) "giveaway_message"
        = some (.msg (Message.de_json (raw.get "giveaway_message") bot)) ∧
      (raw.get "giveaway_message" = none →
        tdGet (GiveawayCompleted.transform (toT raw) bot) "giveaway_message"
          = some (.msg none))) ∧
    (∀ (raw : JObj) (bot : TgBot) (g : Giveaway),
      Giveaway.de_json (some raw) bot = .ok (some g) →
      kwGet g.api_kwargs "chats" = none ∧
      kwGet g.api_kwargs "winners_selection_date" = none) ∧
    (∀ (raw : JObj) (bot : TgBot) (g : GiveawayWinners),
      GiveawayWinners.de_json (some raw) bot = .ok (some g) →
      kwGet g.api_kwargs "chat" = none ∧
      kwGet g.api_kwargs "winners" = none ∧
      kwGet g.api_kwargs "winners_selection_date" = none) ∧
    (∀ (raw : JObj) (bot : TgBot) (g : GiveawayCompleted),
      GiveawayCompleted.de_json (some raw) bot = .ok (some g) →
      kwGet g.api_kwargs "giveaway_message" = none) := by
  refine ⟨?_, ?_, ?_, ?_, ?_, ?_⟩
  · intro raw bot
    refine ⟨giveaway_transform_chats raw bot, giveaway_transform_date raw bot, ?_, ?_⟩
    · intro h
      rw [giveaway_transform_chats raw bot, h]
      rfl
    · intro h
      rw [giveaway_transform_date raw bot, h]
      rfl
  · intro raw bot
    refine ⟨winners_transform_chat raw bot, winners_transform_winners raw bot,
      winners_transform_date raw bot, ?_, ?_, ?_⟩
    · intro h
      rw [winners_transform_chat raw bot, h]
      rfl
    · intro h
      rw [winners_transform_winners raw bot, h]
      rfl
    · intro h
      rw [winners_transform_date raw bot, h]
      rfl
  · intro raw bot
    refine ⟨completed_transform_msg raw bot, ?_⟩
    intro h
    rw [completed_transform_msg raw bot, h]
    rfl
  · intro raw bot g h
    rw [giveaway_api_kwargs_of_ok raw bot g h]
    exact ⟨kwGet_capture_declared _ _ _ (by decide),
      kwGet_capture_declared _ _ _ (by decide)⟩
  · intro raw bot g h
    rw [winners_api_kwargs_of_ok raw bot g h]
    exact ⟨kwGet_capture_declared _ _ _ (by decide),
      kwGet_capture_declared _ _ _ (by decide),
      kwGet_capture_declared _ _ _ (by decide)⟩
  · intro raw bot g h
    rw [completed_api_kwargs_of_ok raw bot g h]
    exact kwGet_capture_declared _ _ _ (by decide)

theorem transformed_keys_unconditional_witness :
    tdGet (Giveaway.transform (toT .nil) { defaults_tzinfo := none }) "chats"
      = some (.chats (Chat.de_list ((JObj.nil).get "chats") { defaults_tzinfo := none })) ∧
    ((JObj.nil).get "chats" = none →
      tdGet (Giveaway.transform (toT .nil) { defaults_tzinfo := none }) "chats"
        = some (.chats [])) ∧
    kwGet (GiveawayCompleted.construct (.int 3) (.int 1) none []).api_kwargs
        "giveaway_message" = none :=
  ⟨(transformed_keys_unconditional.1 .nil { defaults_tzinfo := none }).1,
   (transformed_keys_unconditional.1 .nil { defaults_tzinfo := none }).2.2.1,
   transformed_keys_unconditional.2.2.2.2.2
     (.cons "winner_count" (.int 3) (.cons "unclaimed_prize_count" (.int 1) .nil))
     { defaults_tzinfo := none }
     (GiveawayCompleted.construct (.int 3) (.int 1) none []) rfl⟩

theorem Heap.read_write_ne (h : Heap) (r r' : Nat) (d : TDict) (hne : r' ≠ r) :
    (h.write r' d).read r = h.read r := by
  simp only [Heap.read, Heap.write]
  rw [List.getElem?_set_ne hne]

theorem Heap.read_alloc_lt (h : Heap) (d : TDict) (r : Nat)
    (hr : r < h.cells.length) :
    (h.alloc d).1.read r = h.read r := by
  simp only [Heap.read, Heap.alloc]
  rw [List.getElem?_append, if_pos hr]

theorem runWrites_read_ne (steps : List (TDict → TDict)) (h : Heap) (r r' : Nat)
    (hne : r' ≠ r) : (runWrites h r' steps).read r = h.read r := by
  induction steps generalizing h with
  | nil => rfl
  | cons s rest ih =>
    have hstep : runWrites h r' (s :: rest)
        = runWrites (h.write r' (s (h.read r'))) r' rest := rfl
    rw [hstep, ih, Heap.read_write_ne _ _ _ _ hne]

/-- C8: frame condition on hydration — for every raw dict object handed
to `de_json`, the caller-owned mapping is unchanged after hydration
returns: the in-place field transformations are applied only to the
shallow copy allocated by `_parse_data`, never to the caller's object
(and an absent input leaves the heap untouched entirely). -/
theorem de_json_frame_condition (h : Heap) (r : Nat) (bot : TgBot)
    (hr : r < h.cells.length) :
    (Giveaway.de_json_mut h (some r) bot).1.read r = h.read r ∧
    (GiveawayWinners.de_json_mut h (some r) bot).1.read r = h.read r ∧
    (GiveawayCompleted.de_json_mut h (some r) bot).1.read r = h.read r ∧
    (Giveaway.de_json_mut h none bot).1 = h ∧
    (GiveawayWinners.de_json_mut h none bot).1 = h ∧
    (GiveawayCompleted.de_json_mut h none bot).1 = h := by
  have hne : h.cells.length ≠ r := (Nat.ne_of_lt hr).symm
  refine ⟨?_, ?_, ?_, rfl, rfl, rfl⟩ <;>
    simp only [Giveaway.de_json_mut, GiveawayWinners.de_json_mut,
      GiveawayCompleted.de_json_mut, Heap.alloc] <;>
    rw [runWrites_read_ne _ _ _ _ hne] <;>
    exact Heap.read_alloc_lt h _ r hr

theorem de_json_frame_condition_witness :
    (Giveaway.de_json_mut { cells := [[("winner_count", .raw (.int 1))]] }
        (some 0) { defaults_tzinfo := none }).1.read 0
      = Heap.read { cells := [[("winner_count", .raw (.int 1))]] } 0 ∧
    (GiveawayWinners.de_json_mut { cells := [[("winner_count", .raw (.int 1))]] }
        (some 0) { defaults_tzinfo := none }).1.read 0
      = Heap.read { cells := [[("winner_count", .raw (.int 1))]] } 0 ∧
    (GiveawayCompleted.de_json_mut { cells := [[("winner_count", .raw (.int 1))]] }
        (some 0) { defaults_tzinfo := none }).1.read 0
      = Heap.read { cells := [[("winner_count", .raw (.int 1))]] } 0 ∧
    (Giveaway.de_json_mut { cells := [[("winner_count", .raw (.int 1))]] }
        none { defaults_tzinfo := none }).1
      = { cells := [[("winner_count", .raw (.int 1))]] } ∧
    (GiveawayWinners.de_json_mut { cells := [[("winner_count", .raw (.int 1))]] }
        none { defaults_tzinfo := none }).1
      = { cells := [[("winner_count", .raw (.int 1))]] } ∧
    (GiveawayCompleted.de_json_mut { cells := [[("winner_count", .raw (.int 1))]] }
        none { defaults_tzinfo := none }).1
      = { cells := [[("winner_count", .raw (.int 1))]] } :=
  de_json_frame_condition { cells := [[("winner_count", .raw (.int 1))]] } 0
    { defaults_tzinfo := none } (by decide)
